import Mathlib

/-!
# Mass on Spring: the per-frame update of `main.go`

A shallow embedding of the physics step and of the Idle / Simulation state
machine of `src/main.go`.  The numbers of the program are `float32` /
`float64`; they are embedded in an arbitrary linearly ordered field `α`
(exact arithmetic: `ℚ` for evaluation, `ℝ` for the statements about real
numbers).  Rounding is therefore not part of the model.

The Go program keeps `state` and `DraggingObj` in package-level variables and
`x`, `v` in locals of `main`; here they are the four fields of `World`, which
every function takes and returns explicitly.  The three values read from
raylib in a frame (`GetMousePosition`, `IsMouseButtonDown(MouseButtonLeft)`,
`GetFrameTime`) are the fields of `Input`.  Drawing calls have no effect on
these variables and are left out.
-/

namespace MassOnSpring

/-! ## Constants (`main.go`, lines 11-35) -/

/-- Window width, `WIDTH int32 = 900`. -/
def WIDTH : Int := 900

/-- Window height, `HEIGHT int32 = 600`. -/
def HEIGHT : Int := 600

/-- Side of the mass, `RECT_SIZE int32 = 50`. -/
def RECT_SIZE : Int := 50

/-- Thickness of the ground line, `GROUND_THICK int32 = 6`. -/
def GROUND_THICK : Int := 6

section Numbers

variable {α : Type} [LinearOrderedField α]

/-- Rest position, `float32(WIDTH)/2 - float32(RECT_SIZE)/2`. -/
def EQUILIBRIUM_X : α := (WIDTH : α) / 2 - (RECT_SIZE : α) / 2

/-- Velocity the program starts with, `START_VELOCITY float32 = 40`. -/
def START_VELOCITY : α := 40

/-- Spring constant, `SPRING_STIFFNESS float32 = 50`. -/
def SPRING_STIFFNESS : α := 50

/-- Mass of the object, `OBJ_MASS float32 = 1`. -/
def OBJ_MASS : α := 1

/-- Damping, `DAMPING_COEFFICIENT float32 = 2`. -/
def DAMPING_COEFFICIENT : α := 2

/-- Settle threshold, `EPSILON float64 = 0.1`. -/
def EPSILON : α := 1 / 10

/-- Release threshold, `THRESHOLD float64 = 10`. -/
def THRESHOLD : α := 10

end Numbers

/-! ## Data -/

/-- The two values of `type State string`. -/
inductive State where
  | Idle
  | RunningSimulation
  deriving DecidableEq, Repr

/-- A point, `rl.Vector2`. -/
structure Vector2 (α : Type) where
  X : α
  Y : α

/-- An axis-aligned rectangle, `rl.Rectangle`. -/
structure Rectangle (α : Type) where
  X : α
  Y : α
  Width : α
  Height : α

/-- What one frame reads from the window library. -/
structure Input (α : Type) where
  /-- Result of `rl.GetMousePosition()`. -/
  mousePos : Vector2 α
  /-- Result of `rl.IsMouseButtonDown(rl.MouseButtonLeft)`. -/
  buttonDown : Bool
  /-- Result of `rl.GetFrameTime()`. -/
  dt : α

/-- The mutable variables of the program: the globals `state` and
`DraggingObj` and the locals `x`, `v` of `main`. -/
structure World (α : Type) where
  state : State
  DraggingObj : Bool
  x : α
  v : α

section Code

variable {α : Type} [LinearOrderedField α]

/-! ## Library functions used by the program -/

/-- Point-in-rectangle test of raylib (`CheckCollisionPointRec`): the
rectangle is closed on its left and top edge and open on the right and
bottom one. -/
def CheckCollisionPointRec (point : Vector2 α) (rec : Rectangle α) : Bool :=
  decide (point.X ≥ rec.X) && decide (point.X < rec.X + rec.Width) &&
    decide (point.Y ≥ rec.Y) && decide (point.Y < rec.Y + rec.Height)

/-- Clamp of raylib-go (`rl.Clamp`): first raise to `min`, then cut at `max`. -/
def Clamp (value min max : α) : α :=
  let res := if value < min then min else value
  if res > max then max else res

/-! ## The program -/

/-- Source `acceleration` (lines 179-182). -/
def acceleration (x v : α) : α :=
  let displacement := x - EQUILIBRIUM_X
  (-SPRING_STIFFNESS / OBJ_MASS * displacement) - (DAMPING_COEFFICIENT / OBJ_MASS * v)

/-- The rectangle `objRect` that `DrawIdle` builds from the incoming `x`. -/
def objRect (x : α) : Rectangle α :=
  { X := x
    Y := (HEIGHT : α) / 2 - (RECT_SIZE : α) - (GROUND_THICK : α) / 2
    Width := (RECT_SIZE : α)
    Height := (RECT_SIZE : α) }

/-- Source `DrawIdle` (lines 90-130).  The incoming `x` is `w.x`; the result
holds the returned `x` and the globals as the call leaves them. -/
def DrawIdle (w : World α) (inp : Input α) : World α :=
  let mousePos := inp.mousePos
  -- lines 101-111: hovering the rectangle sets the flag (the test is made twice);
  -- the cursor shape and the colour only concern the drawing
  let d1 : Bool :=
    if CheckCollisionPointRec mousePos (objRect w.x) then
      if CheckCollisionPointRec mousePos (objRect w.x) then true else w.DraggingObj
    else w.DraggingObj
  -- lines 113-115
  let d2 : Bool := if !inp.buttonDown then false else d1
  -- lines 117-119
  let x1 : α :=
    if d2 then Clamp mousePos.X (RECT_SIZE : α) ((WIDTH : α) - (RECT_SIZE : α)) else w.x
  -- lines 125-127
  let s1 : State :=
    if !d2 && decide (|x1 - EQUILIBRIUM_X| > THRESHOLD) then State.RunningSimulation
    else w.state
  { state := s1, DraggingObj := d2, x := x1, v := w.v }

/-- Source `RunSimulation` (lines 132-145).  The incoming `x`, `v` are `w.x`,
`w.v`; the result holds the returned pair and the globals as the call leaves
them. -/
def RunSimulation (w : World α) (dt : α) : World α :=
  let a := acceleration w.x w.v
  let s1 : State :=
    if |w.x - EQUILIBRIUM_X| < EPSILON ∧ |w.v| < EPSILON then State.Idle else w.state
  let v1 := w.v + a * dt
  let x1 := w.x + v1 * dt
  { state := s1, DraggingObj := w.DraggingObj, x := x1, v := v1 }

/-- One iteration of the loop of `main` (lines 74-81): the `switch state`. -/
def mainFrame (w : World α) (inp : Input α) : World α :=
  match w.state with
  | State.Idle => DrawIdle w inp
  | State.RunningSimulation => RunSimulation w inp.dt

/-- The variables as `main` initialises them (lines 44-47 and 62-65). -/
def initialWorld : World α :=
  { state := State.Idle, DraggingObj := false, x := EQUILIBRIUM_X, v := START_VELOCITY }

/-- The loop of `main` run over a finite sequence of frame inputs. -/
def runFrames (w : World α) : List (Input α) → World α
  | [] => w
  | inp :: rest => runFrames (mainFrame w inp) rest

/-- Quantity of the energy property, not a function of the program: the total
mechanical energy `0.5*mass*v^2 + 0.5*stiffness*displacement^2`, built from
the constants of the program. -/
def energy (x v : α) : α :=
  1 / 2 * OBJ_MASS * v ^ 2 + 1 / 2 * SPRING_STIFFNESS * (x - EQUILIBRIUM_X) ^ 2

/-- The invariant of the loop: the drag flag is false in the Simulation mode. -/
def simulatingNotDragging (w : World α) : Prop :=
  w.state = State.RunningSimulation → w.DraggingObj = false

end Code

/-! ## Basic facts -/

section Lemmas

variable {α : Type} [LinearOrderedField α]

theorem EQUILIBRIUM_X_eq : (EQUILIBRIUM_X : α) = 425 := by
  simp only [EQUILIBRIUM_X, WIDTH, RECT_SIZE]
  norm_num

theorem acceleration_eq (x v : α) : acceleration x v = -50 * (x - 425) - 2 * v := by
  simp only [acceleration, EQUILIBRIUM_X_eq, SPRING_STIFFNESS, OBJ_MASS, DAMPING_COEFFICIENT]
  ring

theorem objRect_eq (x : α) : objRect x = Rectangle.mk x 247 50 50 := by
  simp only [objRect, HEIGHT, RECT_SIZE, GROUND_THICK]
  norm_num

theorem mainFrame_simulating (w : World α) (inp : Input α)
    (hmode : w.state = State.RunningSimulation) :
    mainFrame w inp = RunSimulation w inp.dt := by
  simp [mainFrame, hmode]

theorem mainFrame_idle (w : World α) (inp : Input α) (hmode : w.state = State.Idle) :
    mainFrame w inp = DrawIdle w inp := by
  simp [mainFrame, hmode]

theorem RunSimulation_x (w : World α) (dt : α) :
    (RunSimulation w dt).x = w.x + (w.v + (-50 * (w.x - 425) - 2 * w.v) * dt) * dt := by
  simp only [RunSimulation, acceleration_eq]

theorem RunSimulation_v (w : World α) (dt : α) :
    (RunSimulation w dt).v = w.v + (-50 * (w.x - 425) - 2 * w.v) * dt := by
  simp only [RunSimulation, acceleration_eq]

theorem RunSimulation_DraggingObj (w : World α) (dt : α) :
    (RunSimulation w dt).DraggingObj = w.DraggingObj := rfl

theorem RunSimulation_state_settled (w : World α) (dt : α)
    (hx : |w.x - 425| < 1 / 10) (hv : |w.v| < 1 / 10) :
    (RunSimulation w dt).state = State.Idle := by
  have h : |w.x - 425| < 1 / 10 ∧ |w.v| < 1 / 10 := ⟨hx, hv⟩
  simp only [RunSimulation, EQUILIBRIUM_X_eq, EPSILON]
  rw [if_pos h]

theorem RunSimulation_state_unsettled (w : World α) (dt : α)
    (hns : ¬ (|w.x - 425| < 1 / 10 ∧ |w.v| < 1 / 10)) :
    (RunSimulation w dt).state = w.state := by
  simp only [RunSimulation, EQUILIBRIUM_X_eq, EPSILON]
  rw [if_neg hns]

theorem DrawIdle_DraggingObj (w : World α) (inp : Input α) :
    (DrawIdle w inp).DraggingObj =
      (inp.buttonDown && (CheckCollisionPointRec inp.mousePos (objRect w.x) || w.DraggingObj)) := by
  simp only [DrawIdle]
  cases inp.buttonDown <;> cases CheckCollisionPointRec inp.mousePos (objRect w.x) <;>
    cases w.DraggingObj <;> rfl

theorem DrawIdle_x (w : World α) (inp : Input α) :
    (DrawIdle w inp).x =
      if (DrawIdle w inp).DraggingObj = true then Clamp inp.mousePos.X 50 850 else w.x := by
  have h1 : ((RECT_SIZE : Int) : α) = 50 := by simp [RECT_SIZE]
  have h2 : ((WIDTH : Int) : α) - 50 = 850 := by
    simp only [WIDTH]; norm_num
  simp only [DrawIdle, h1, h2]

theorem DrawIdle_v (w : World α) (inp : Input α) : (DrawIdle w inp).v = w.v := rfl

theorem DrawIdle_state (w : World α) (inp : Input α) :
    (DrawIdle w inp).state =
      if (DrawIdle w inp).DraggingObj = false ∧ |(DrawIdle w inp).x - 425| > 10 then
        State.RunningSimulation
      else w.state := by
  simp only [DrawIdle, EQUILIBRIUM_X_eq, THRESHOLD, Bool.and_eq_true, Bool.not_eq_true',
    decide_eq_true_eq]

theorem Clamp_eq (value lo hi : α) (h : lo ≤ hi) : Clamp value lo hi = max lo (min value hi) := by
  unfold Clamp
  by_cases h1 : value < lo
  · have h2 : ¬ lo > hi := not_lt.mpr h
    simp only [h1, if_true, h2, if_false]
    rw [max_eq_left]
    exact le_trans (min_le_left _ _) (le_of_lt h1)
  · simp only [h1, if_false]
    have h1' : lo ≤ value := not_lt.mp h1
    by_cases h3 : value > hi
    · simp only [h3, if_true]
      rw [min_eq_right (le_of_lt h3), max_eq_right h]
    · simp only [h3, if_false]
      rw [min_eq_left (not_lt.mp h3), max_eq_right h1']

theorem CheckCollisionPointRec_objRect (p : Vector2 α) (x : α) :
    CheckCollisionPointRec p (objRect x) = true ↔
      (x ≤ p.X ∧ p.X < x + 50 ∧ 247 ≤ p.Y ∧ p.Y < 297) := by
  rw [objRect_eq]
  simp only [CheckCollisionPointRec, Bool.and_eq_true, decide_eq_true_eq, ge_iff_le]
  have h : (247 : α) + 50 = 297 := by norm_num
  rw [h]
  tauto

theorem mainFrame_simulatingNotDragging (w : World α) (inp : Input α)
    (h : simulatingNotDragging w) : simulatingNotDragging (mainFrame w inp) := by
  intro hs
  cases hmode : w.state with
  | Idle =>
    rw [mainFrame_idle w inp hmode] at hs ⊢
    rw [DrawIdle_state] at hs
    by_cases hc : (DrawIdle w inp).DraggingObj = false ∧ |(DrawIdle w inp).x - 425| > 10
    · exact hc.1
    · rw [if_neg hc, hmode] at hs
      cases hs
  | RunningSimulation =>
    rw [mainFrame_simulating w inp hmode, RunSimulation_DraggingObj]
    exact h hmode

theorem runFrames_simulatingNotDragging (inps : List (Input α)) :
    ∀ w : World α, simulatingNotDragging w → simulatingNotDragging (runFrames w inps) := by
  induction inps with
  | nil => intro w h; exact h
  | cons inp rest ih =>
    intro w h
    exact ih (mainFrame w inp) (mainFrame_simulatingNotDragging w inp h)

theorem DrawIdle_button_up (w : World α) (inp : Input α) (hmode : w.state = State.Idle)
    (hnear : |w.x - 425| ≤ 10) (hup : inp.buttonDown = false) :
    DrawIdle w inp = World.mk State.Idle false w.x w.v := by
  have hd : (DrawIdle w inp).DraggingObj = false := by
    rw [DrawIdle_DraggingObj, hup]; rfl
  have hx : (DrawIdle w inp).x = w.x := by
    rw [DrawIdle_x, hd]; simp
  have hs : (DrawIdle w inp).state = State.Idle := by
    rw [DrawIdle_state, hx, if_neg (fun h => absurd h.2 (not_lt.mpr hnear)), hmode]
  have hv : (DrawIdle w inp).v = w.v := rfl
  cases hr : DrawIdle w inp with
  | mk s d x v =>
    rw [hr] at hd hx hs hv
    simp only at hd hx hs hv
    rw [hd, hx, hs, hv]

theorem runFrames_button_up (inps : List (Input α)) :
    ∀ w : World α, w.state = State.Idle → |w.x - 425| ≤ 10 →
      (∀ inp ∈ inps, inp.buttonDown = false) →
      (runFrames w inps).state = State.Idle ∧ (runFrames w inps).x = w.x ∧
        (runFrames w inps).v = w.v := by
  induction inps with
  | nil => intro w hmode _ _; exact ⟨hmode, rfl, rfl⟩
  | cons inp rest ih =>
    intro w hmode hnear hup
    have h1 : mainFrame w inp = World.mk State.Idle false w.x w.v := by
      rw [mainFrame_idle w inp hmode]
      exact DrawIdle_button_up w inp hmode hnear (hup inp (List.mem_cons_self _ _))
    have h2 := ih (mainFrame w inp) (by rw [h1]) (by rw [h1]; exact hnear)
      (fun i hi => hup i (List.mem_cons_of_mem _ hi))
    have h3 : runFrames w (inp :: rest) = runFrames (mainFrame w inp) rest := rfl
    rw [h3]
    rw [h1] at h2 ⊢
    exact h2

theorem RunSimulation_settled_near (w : World α) (dt : α)
    (hx : |w.x - 425| < 1 / 10) (hv : |w.v| < 1 / 10) (h0 : 0 ≤ dt) (h1 : dt ≤ 1) :
    |(RunSimulation w dt).x - 425| ≤ 10 := by
  have hc1 : |1 - 50 * dt ^ 2| ≤ 49 := abs_le.mpr ⟨by nlinarith, by nlinarith⟩
  have hc2 : |dt * (1 - 2 * dt)| ≤ 1 := abs_le.mpr ⟨by nlinarith, by nlinarith⟩
  have he : (RunSimulation w dt).x - 425
      = (w.x - 425) * (1 - 50 * dt ^ 2) + w.v * (dt * (1 - 2 * dt)) := by
    rw [RunSimulation_x]; ring
  rw [he]
  have ha : |(w.x - 425) * (1 - 50 * dt ^ 2)| ≤ 1 / 10 * 49 := by
    rw [abs_mul]
    exact mul_le_mul (le_of_lt hx) hc1 (abs_nonneg _) (by norm_num)
  have hb : |w.v * (dt * (1 - 2 * dt))| ≤ 1 / 10 * 1 := by
    rw [abs_mul]
    exact mul_le_mul (le_of_lt hv) hc2 (abs_nonneg _) (by norm_num)
  calc |(w.x - 425) * (1 - 50 * dt ^ 2) + w.v * (dt * (1 - 2 * dt))|
      ≤ |(w.x - 425) * (1 - 50 * dt ^ 2)| + |w.v * (dt * (1 - 2 * dt))| := abs_add _ _
    _ ≤ 1 / 10 * 49 + 1 / 10 * 1 := add_le_add ha hb
    _ ≤ 10 := by norm_num

/-- The energy lost in one integration step of length `h`, from displacement
`d` and velocity `v`, times the positive factor `1250 - 62500*h^2`. -/
theorem energy_loss_identity (d v h : α) :
    (1250 - 62500 * h ^ 2) *
        ((1 / 2 * v ^ 2 + 25 * d ^ 2) -
          (1 / 2 * (v + (-50 * d - 2 * v) * h) ^ 2 +
            25 * (d + (v + (-50 * d - 2 * v) * h) * h) ^ 2)) =
      h * (h * ((1250 - 62500 * h ^ 2) * d + 1250 * (1 - 2 * h) * h * v) ^ 2 +
        ((1250 - 62500 * h ^ 2) * (2 - 27 * h + 100 * h ^ 2 - 100 * h ^ 3) -
          (1250 * (1 - 2 * h)) ^ 2 * h ^ 3) * v ^ 2) := by
  ring

theorem energy_step_le (d v h : α) (h0 : 0 ≤ h) (h1 : h ≤ 16 / 1000) :
    1 / 2 * (v + (-50 * d - 2 * v) * h) ^ 2 +
        25 * (d + (v + (-50 * d - 2 * v) * h) * h) ^ 2 ≤
      1 / 2 * v ^ 2 + 25 * d ^ 2 := by
  have hh2 : h ^ 2 ≤ 16 / 1000 * (16 / 1000) := by nlinarith
  have hh3 : h ^ 3 ≤ 16 / 1000 * (16 / 1000) * (16 / 1000) := by
    have : h ^ 3 = h ^ 2 * h := by ring
    rw [this]
    exact mul_le_mul hh2 h1 h0 (by norm_num)
  have hh2n : 0 ≤ h ^ 2 := sq_nonneg h
  have hh3n : 0 ≤ h ^ 3 := pow_nonneg h0 3
  have ha : (1234 : α) ≤ 1250 - 62500 * h ^ 2 := by linarith
  have hapos : (0 : α) < 1250 - 62500 * h ^ 2 := by linarith
  have hc : (3 / 2 : α) ≤ 2 - 27 * h + 100 * h ^ 2 - 100 * h ^ 3 := by linarith
  have hb : (1250 * (1 - 2 * h)) ^ 2 * h ^ 3 ≤ 7 := by
    have hb1 : (1250 * (1 - 2 * h)) ^ 2 ≤ 1250 ^ 2 := by
      exact pow_le_pow_left₀ (by linarith) (by linarith) 2
    calc (1250 * (1 - 2 * h)) ^ 2 * h ^ 3
        ≤ 1250 ^ 2 * (16 / 1000 * (16 / 1000) * (16 / 1000)) :=
          mul_le_mul hb1 hh3 hh3n (by norm_num)
      _ ≤ 7 := by norm_num
  have hk : (0 : α) ≤ (1250 - 62500 * h ^ 2) * (2 - 27 * h + 100 * h ^ 2 - 100 * h ^ 3) -
      (1250 * (1 - 2 * h)) ^ 2 * h ^ 3 := by
    have : (1234 : α) * (3 / 2) ≤
        (1250 - 62500 * h ^ 2) * (2 - 27 * h + 100 * h ^ 2 - 100 * h ^ 3) :=
      mul_le_mul ha hc (by norm_num) (le_of_lt hapos)
    have h7 : (7 : α) ≤ 1234 * (3 / 2) := by norm_num
    linarith
  have hrhs : 0 ≤ h * (h * ((1250 - 62500 * h ^ 2) * d + 1250 * (1 - 2 * h) * h * v) ^ 2 +
      ((1250 - 62500 * h ^ 2) * (2 - 27 * h + 100 * h ^ 2 - 100 * h ^ 3) -
        (1250 * (1 - 2 * h)) ^ 2 * h ^ 3) * v ^ 2) :=
    mul_nonneg h0 (add_nonneg (mul_nonneg h0 (sq_nonneg _)) (mul_nonneg hk (sq_nonneg _)))
  rw [← energy_loss_identity] at hrhs
  have := (mul_nonneg_iff_of_pos_left hapos).mp hrhs
  linarith

end Lemmas

/-! ## The Simulation frame -/

section Simulation

variable {α : Type} [LinearOrderedField α]

/-- C1: a Simulation frame whose incoming `x`, `v` do not satisfy the settle
condition (not both `|x - 425| < 0.1` and `|v| < 0.1`) is the call
`RunSimulation(x, v, dt)`; with `a = -(50/1)*(x - 425) - (2/1)*v` it returns
`v1 = v + a*dt` and `x1 = x + v1*dt` (the position uses the updated velocity)
and the mode is still Simulation afterwards.  At `x = 425 + 100`, `v = 0`,
`dt = 0.016` this gives `a = -5000`, `v1 = -80`, `x1 = 425 + 98.72`. -/
theorem runSimulation_unsettled_step (w : World α) (inp : Input α)
    (hmode : w.state = State.RunningSimulation) (_hdt : 0 ≤ inp.dt)
    (hns : ¬ (|w.x - 425| < 1 / 10 ∧ |w.v| < 1 / 10)) :
    mainFrame w inp = RunSimulation w inp.dt ∧
    acceleration w.x w.v = -(50 / 1) * (w.x - 425) - (2 / 1) * w.v ∧
    (RunSimulation w inp.dt).v = w.v + acceleration w.x w.v * inp.dt ∧
    (RunSimulation w inp.dt).x = w.x + (RunSimulation w inp.dt).v * inp.dt ∧
    (RunSimulation w inp.dt).state = State.RunningSimulation ∧
    acceleration (425 + 100 : α) 0 = -5000 ∧
    RunSimulation (World.mk State.RunningSimulation w.DraggingObj (425 + 100 : α) 0)
        (16 / 1000) =
      World.mk State.RunningSimulation w.DraggingObj (425 + 9872 / 100) (-80) := by
  refine ⟨mainFrame_simulating w inp hmode, ?_, rfl, rfl, ?_, ?_, ?_⟩
  · rw [acceleration_eq]; ring
  · rw [RunSimulation_state_unsettled w inp.dt hns, hmode]
  · rw [acceleration_eq]; norm_num
  · have hns2 : ¬ (|(425 + 100 : α) - 425| < 1 / 10 ∧ |(0 : α)| < 1 / 10) := by
      norm_num [abs_of_nonneg]
    have hs := RunSimulation_state_unsettled
      (World.mk State.RunningSimulation w.DraggingObj (425 + 100 : α) 0) (16 / 1000) hns2
    have hx := RunSimulation_x
      (World.mk State.RunningSimulation w.DraggingObj (425 + 100 : α) 0) (16 / 1000)
    have hv := RunSimulation_v
      (World.mk State.RunningSimulation w.DraggingObj (425 + 100 : α) 0) (16 / 1000)
    have hd := RunSimulation_DraggingObj
      (World.mk State.RunningSimulation w.DraggingObj (425 + 100 : α) 0) (16 / 1000)
    cases hr : RunSimulation
      (World.mk State.RunningSimulation w.DraggingObj (425 + 100 : α) 0) (16 / 1000) with
    | mk s d x v =>
      rw [hr] at hs hx hv hd
      simp only at hs hx hv hd
      subst hs hd
      rw [hx, hv]
      norm_num

/-- Witness of C1: the scenario of the claim, one frame from `x = 525`, `v = 0`
with `dt = 0.016`. -/
theorem runSimulation_unsettled_step_witness :
    (mainFrame (World.mk State.RunningSimulation false (525 : ℚ) 0)
        (Input.mk (Vector2.mk 0 0) false (16 / 1000))).state = State.RunningSimulation ∧
    (RunSimulation (World.mk State.RunningSimulation false (525 : ℚ) 0) (16 / 1000)).v
      = -80 := by
  have h := runSimulation_unsettled_step
    (World.mk State.RunningSimulation false (525 : ℚ) 0)
    (Input.mk (Vector2.mk 0 0) false (16 / 1000)) rfl (by norm_num)
    (by norm_num [abs_of_nonneg])
  obtain ⟨h1, h2, h3, -, h5, -, -⟩ := h
  refine ⟨by rw [h1]; exact h5, ?_⟩
  rw [h3, h2]
  norm_num

/-- C8: for every `dt`, the integration step of `RunSimulation` applied to
`x = EQUILIBRIUM_X = 425` and `v = 0` returns position 425 and velocity 0. -/
theorem runSimulation_rest_stays_at_rest (s : State) (d : Bool) (dt : α) :
    (EQUILIBRIUM_X : α) = 425 ∧
    (RunSimulation (World.mk s d (EQUILIBRIUM_X : α) 0) dt).x = 425 ∧
    (RunSimulation (World.mk s d (425 : α) 0) dt).x = 425 ∧
    (RunSimulation (World.mk s d (425 : α) 0) dt).v = 0 := by
  refine ⟨EQUILIBRIUM_X_eq, ?_, ?_, ?_⟩
  · rw [RunSimulation_x, EQUILIBRIUM_X_eq]; simp
  · rw [RunSimulation_x]; simp
  · rw [RunSimulation_v]; simp

/-- C9: in the Simulation mode a frame does not look at the pointer or the
button: two inputs with the same `dt` give the same position, velocity, mode
and drag flag; the drag flag is the incoming one and the position is the
integrated one, `x + (v + a*dt)*dt`. -/
theorem simulation_ignores_drag_input (w : World α)
    (hmode : w.state = State.RunningSimulation)
    (p1 p2 : Vector2 α) (b1 b2 : Bool) (dt : α) :
    mainFrame w (Input.mk p1 b1 dt) = mainFrame w (Input.mk p2 b2 dt) ∧
    (mainFrame w (Input.mk p1 b1 dt)).DraggingObj = w.DraggingObj ∧
    (mainFrame w (Input.mk p1 b1 dt)).x = w.x + (w.v + acceleration w.x w.v * dt) * dt := by
  rw [mainFrame_simulating w _ hmode, mainFrame_simulating w _ hmode]
  exact ⟨rfl, rfl, rfl⟩

/-- Witness of C9: a Simulation frame at `x = 525`, `v = 0`, `dt = 1/2`, once
with the pointer on the mass and the button down, once with the pointer away
and the button up. -/
theorem simulation_ignores_drag_input_witness :
    mainFrame (World.mk State.RunningSimulation false (525 : ℚ) 0)
        (Input.mk (Vector2.mk 530 250) true (1 / 2)) =
      mainFrame (World.mk State.RunningSimulation false (525 : ℚ) 0)
        (Input.mk (Vector2.mk 0 0) false (1 / 2)) :=
  (simulation_ignores_drag_input (World.mk State.RunningSimulation false (525 : ℚ) 0) rfl
    (Vector2.mk 530 250) (Vector2.mk 0 0) true false (1 / 2)).1

/-- C2, refuted as stated: the Simulation frame at `x = 425`, `v = 0.05`
(settle condition true) with `dt = 0.016` switches the mode to Idle, yet
returns the integrated values `v = 0.0484` and `x = 425.0007744`, not the
incoming ones. -/
theorem settle_frame_returns_prestep_counterexample :
    |(425 : ℚ) - 425| < 1 / 10 ∧ |(1 / 20 : ℚ)| < 1 / 10 ∧ (0 : ℚ) ≤ 16 / 1000 ∧
    (mainFrame (World.mk State.RunningSimulation false (425 : ℚ) (1 / 20))
      (Input.mk (Vector2.mk 0 0) false (16 / 1000))).state = State.Idle ∧
    (mainFrame (World.mk State.RunningSimulation false (425 : ℚ) (1 / 20))
      (Input.mk (Vector2.mk 0 0) false (16 / 1000))).v = 121 / 2500 ∧
    (mainFrame (World.mk State.RunningSimulation false (425 : ℚ) (1 / 20))
      (Input.mk (Vector2.mk 0 0) false (16 / 1000))).x = 425 + 121 / 156250 ∧
    (mainFrame (World.mk State.RunningSimulation false (425 : ℚ) (1 / 20))
      (Input.mk (Vector2.mk 0 0) false (16 / 1000))).v ≠ 1 / 20 ∧
    (mainFrame (World.mk State.RunningSimulation false (425 : ℚ) (1 / 20))
      (Input.mk (Vector2.mk 0 0) false (16 / 1000))).x ≠ 425 := by
  have hx : |(425 : ℚ) - 425| < 1 / 10 := by norm_num
  have hv : |(1 / 20 : ℚ)| < 1 / 10 := by norm_num [abs_of_nonneg]
  rw [mainFrame_simulating _ _ rfl]
  refine ⟨hx, hv, by norm_num, RunSimulation_state_settled _ _ hx hv, ?_, ?_, ?_, ?_⟩
  · rw [RunSimulation_v]; norm_num
  · rw [RunSimulation_x]; norm_num
  · rw [RunSimulation_v]; norm_num
  · rw [RunSimulation_x]; norm_num

/-- C2, amended: a Simulation frame whose incoming `x`, `v` satisfy the settle
condition, with `dt >= 0`, switches the mode to Idle and still integrates: the
velocity and position it returns are `v1 = v + a*dt` and `x1 = x + v1*dt` with
`a = -(50/1)*(x - 425) - (2/1)*v`, the same step as on any other Simulation
frame. -/
theorem settle_frame_goes_idle_and_integrates (w : World α) (inp : Input α)
    (hmode : w.state = State.RunningSimulation) (_hdt : 0 ≤ inp.dt)
    (hx : |w.x - 425| < 1 / 10) (hv : |w.v| < 1 / 10) :
    (mainFrame w inp).state = State.Idle ∧
    (mainFrame w inp).v = w.v + (-(50 / 1) * (w.x - 425) - (2 / 1) * w.v) * inp.dt ∧
    (mainFrame w inp).x = w.x + (mainFrame w inp).v * inp.dt := by
  rw [mainFrame_simulating w inp hmode]
  have hv1 : (RunSimulation w inp.dt).v
      = w.v + (-(50 / 1) * (w.x - 425) - (2 / 1) * w.v) * inp.dt := by
    rw [RunSimulation_v]; ring
  have hx1 : (RunSimulation w inp.dt).x = w.x + (RunSimulation w inp.dt).v * inp.dt := rfl
  exact ⟨RunSimulation_state_settled w inp.dt hx hv, hv1, hx1⟩

/-- Witness of the amended C2: the frame at `x = 425`, `v = 0.05`, `dt = 0.016`. -/
theorem settle_frame_goes_idle_and_integrates_witness :
    (mainFrame (World.mk State.RunningSimulation false (425 : ℚ) (1 / 20))
      (Input.mk (Vector2.mk 0 0) false (16 / 1000))).state = State.Idle :=
  (settle_frame_goes_idle_and_integrates
    (World.mk State.RunningSimulation false (425 : ℚ) (1 / 20))
    (Input.mk (Vector2.mk 0 0) false (16 / 1000)) rfl (by norm_num) (by norm_num)
    (by norm_num [abs_of_nonneg])).1

end Simulation

/-! ## The Idle frame -/

section IdleFrame

variable {α : Type} [LinearOrderedField α]

/-- C3: after an Idle frame the mode is Simulation exactly when the drag flag
after the frame is false and `|x1 - 425| > 10` for the returned position
`x1`; otherwise it is still Idle.  So a displacement of 10 or less leaves the
mode Idle, and so does a drag flag that is true. -/
theorem idle_frame_mode (w : World α) (inp : Input α) (hmode : w.state = State.Idle) :
    ((mainFrame w inp).state = State.RunningSimulation ↔
      ((mainFrame w inp).DraggingObj = false ∧ |(mainFrame w inp).x - 425| > 10)) ∧
    (¬ ((mainFrame w inp).DraggingObj = false ∧ |(mainFrame w inp).x - 425| > 10) →
      (mainFrame w inp).state = State.Idle) ∧
    (|(mainFrame w inp).x - 425| ≤ 10 → (mainFrame w inp).state = State.Idle) ∧
    ((mainFrame w inp).DraggingObj = true → (mainFrame w inp).state = State.Idle) := by
  rw [mainFrame_idle w inp hmode]
  have hs := DrawIdle_state w inp
  by_cases hc : (DrawIdle w inp).DraggingObj = false ∧ |(DrawIdle w inp).x - 425| > 10
  · rw [if_pos hc] at hs
    refine ⟨⟨fun _ => hc, fun _ => hs⟩, fun h => absurd hc h, fun h => ?_, fun h => ?_⟩
    · exact absurd hc.2 (not_lt.mpr h)
    · rw [hc.1] at h; cases h
  · rw [if_neg hc, hmode] at hs
    refine ⟨⟨fun h => ?_, fun h => absurd h hc⟩, fun _ => hs, fun _ => hs, fun _ => hs⟩
    rw [hs] at h; cases h

/-- Witness of C3: an Idle frame with the mass at 600, button up. -/
theorem idle_frame_mode_witness :
    (mainFrame (World.mk State.Idle false (600 : ℚ) 0)
        (Input.mk (Vector2.mk 0 0) false (16 / 1000))).state = State.RunningSimulation ↔
      ((mainFrame (World.mk State.Idle false (600 : ℚ) 0)
          (Input.mk (Vector2.mk 0 0) false (16 / 1000))).DraggingObj = false ∧
        |(mainFrame (World.mk State.Idle false (600 : ℚ) 0)
          (Input.mk (Vector2.mk 0 0) false (16 / 1000))).x - 425| > 10) :=
  (idle_frame_mode (World.mk State.Idle false (600 : ℚ) 0)
    (Input.mk (Vector2.mk 0 0) false (16 / 1000)) rfl).1

/-- C4: after an Idle frame the drag flag is `buttonDown AND (pointerInside OR
previous flag)`, where `pointerInside` is the collision test of the pointer
against `objRect`, the 50 x 50 rectangle with left edge at the incoming `x`.
Hence the flag turns true only with the pointer inside and the button down,
stays true while the button stays down, and is false when the button is up. -/
theorem idle_frame_drag_flag (w : World α) (inp : Input α) (hmode : w.state = State.Idle) :
    (mainFrame w inp).DraggingObj =
      (inp.buttonDown && (CheckCollisionPointRec inp.mousePos (objRect w.x) || w.DraggingObj)) ∧
    ((objRect w.x).X = w.x ∧ (objRect w.x).Width = 50 ∧ (objRect w.x).Height = 50) ∧
    (CheckCollisionPointRec inp.mousePos (objRect w.x) = true ↔
      (w.x ≤ inp.mousePos.X ∧ inp.mousePos.X < w.x + 50 ∧
        247 ≤ inp.mousePos.Y ∧ inp.mousePos.Y < 297)) ∧
    (w.DraggingObj = false → (mainFrame w inp).DraggingObj = true →
      CheckCollisionPointRec inp.mousePos (objRect w.x) = true ∧ inp.buttonDown = true) ∧
    (w.DraggingObj = true → inp.buttonDown = true → (mainFrame w inp).DraggingObj = true) ∧
    (inp.buttonDown = false → (mainFrame w inp).DraggingObj = false) := by
  rw [mainFrame_idle w inp hmode, DrawIdle_DraggingObj]
  refine ⟨rfl, ?_, CheckCollisionPointRec_objRect inp.mousePos w.x, ?_, ?_, ?_⟩
  · rw [objRect_eq]; exact ⟨rfl, rfl, rfl⟩
  · intro h1 h2
    rw [h1] at h2
    simp only [Bool.or_false, Bool.and_eq_true] at h2
    exact ⟨h2.2, h2.1⟩
  · intro h1 h2
    rw [h1, h2]
    simp
  · intro h
    rw [h]
    simp

/-- Witness of C4: the mass at 425, pointer at (430, 250) inside it, button
down, flag previously false. -/
theorem idle_frame_drag_flag_witness :
    (mainFrame (World.mk State.Idle false (425 : ℚ) 0)
        (Input.mk (Vector2.mk 430 250) true (16 / 1000))).DraggingObj =
      (true && (CheckCollisionPointRec (Vector2.mk (430 : ℚ) 250) (objRect 425) || false)) :=
  (idle_frame_drag_flag (World.mk State.Idle false (425 : ℚ) 0)
    (Input.mk (Vector2.mk 430 250) true (16 / 1000)) rfl).1

/-- C5: an Idle frame that ends with the drag flag true returns
`clamp(px, 50, 850)` for the pointer x-coordinate `px`: 50 when `px < 50`, 850
when `px > 850`, `px` itself when `50 <= px <= 850`; the returned position lies
in `[RECT_SIZE, WIDTH - RECT_SIZE] = [50, 850]`. -/
theorem idle_frame_drag_clamps (w : World α) (inp : Input α) (hmode : w.state = State.Idle)
    (hdrag : (mainFrame w inp).DraggingObj = true) :
    ((RECT_SIZE : α) = 50 ∧ (WIDTH : α) - (RECT_SIZE : α) = 850) ∧
    (mainFrame w inp).x = max 50 (min inp.mousePos.X 850) ∧
    (inp.mousePos.X < 50 → (mainFrame w inp).x = 50) ∧
    (inp.mousePos.X > 850 → (mainFrame w inp).x = 850) ∧
    (50 ≤ inp.mousePos.X → inp.mousePos.X ≤ 850 → (mainFrame w inp).x = inp.mousePos.X) ∧
    50 ≤ (mainFrame w inp).x ∧ (mainFrame w inp).x ≤ 850 := by
  rw [mainFrame_idle w inp hmode] at hdrag ⊢
  have hx : (DrawIdle w inp).x = max 50 (min inp.mousePos.X 850) := by
    rw [DrawIdle_x, if_pos hdrag, Clamp_eq _ _ _ (by norm_num)]
  rw [hx]
  refine ⟨⟨by simp [RECT_SIZE], by simp only [WIDTH, RECT_SIZE]; norm_num⟩, rfl, ?_, ?_, ?_,
    le_max_left _ _, max_le (by norm_num) (min_le_right _ _)⟩
  · intro h
    rw [min_eq_left (le_trans (le_of_lt h) (by norm_num)), max_eq_left (le_of_lt h)]
  · intro h
    rw [min_eq_right (le_of_lt h), max_eq_right (by norm_num)]
  · intro h1 h2
    rw [min_eq_left h2, max_eq_right h1]

/-- Witness of C5: a drag in progress with the pointer at x = 900, right of the
window margin. -/
theorem idle_frame_drag_clamps_witness :
    (mainFrame (World.mk State.Idle true (600 : ℚ) 0)
        (Input.mk (Vector2.mk 900 0) true (16 / 1000))).x = 850 :=
  (idle_frame_drag_clamps (World.mk State.Idle true (600 : ℚ) 0)
    (Input.mk (Vector2.mk 900 0) true (16 / 1000)) rfl
    (by rw [mainFrame_idle _ _ rfl, DrawIdle_DraggingObj]; simp)).2.2.2.1 (by norm_num)

end IdleFrame

/-! ## Runs of the loop -/

section Runs

variable {α : Type} [LinearOrderedField α]

/-- C10: the program starts in the mode Idle with the drag flag false,
`x = 425` and `v = 40`, and after any finite sequence of frames, whatever the
pointer positions, button states and frame times, the drag flag is false
whenever the mode is Simulation. -/
theorem reachable_simulating_not_dragging (inps : List (Input α)) :
    (initialWorld : World α) = World.mk State.Idle false 425 40 ∧
    ((runFrames (initialWorld : World α) inps).state = State.RunningSimulation →
      (runFrames (initialWorld : World α) inps).DraggingObj = false) := by
  refine ⟨?_, runFrames_simulatingNotDragging inps initialWorld (fun _ => rfl)⟩
  simp only [initialWorld, EQUILIBRIUM_X_eq, START_VELOCITY]

/-- Witness of C10: grab the mass at 430, drag it to 600, release; the third
frame starts the simulation. -/
theorem reachable_simulating_not_dragging_witness :
    (runFrames (initialWorld : World ℚ)
      [Input.mk (Vector2.mk 430 250) true (16 / 1000),
       Input.mk (Vector2.mk 600 250) true (16 / 1000),
       Input.mk (Vector2.mk 600 250) false (16 / 1000)]).state = State.RunningSimulation ∧
    (runFrames (initialWorld : World ℚ)
      [Input.mk (Vector2.mk 430 250) true (16 / 1000),
       Input.mk (Vector2.mk 600 250) true (16 / 1000),
       Input.mk (Vector2.mk 600 250) false (16 / 1000)]).DraggingObj = false := by
  have hs : (runFrames (initialWorld : World ℚ)
      [Input.mk (Vector2.mk 430 250) true (16 / 1000),
       Input.mk (Vector2.mk 600 250) true (16 / 1000),
       Input.mk (Vector2.mk 600 250) false (16 / 1000)]).state = State.RunningSimulation := by
    norm_num [runFrames, mainFrame, DrawIdle, initialWorld, CheckCollisionPointRec, objRect, Clamp,
      EQUILIBRIUM_X, THRESHOLD, WIDTH, HEIGHT, RECT_SIZE, GROUND_THICK, abs_of_nonneg]
  exact ⟨hs, (reachable_simulating_not_dragging _).2 hs⟩

/-- C6, refuted as stated: the Simulation frame at `x = 425.09`, `v = 0.09`
(settle condition true) with `dt = 2` leaves the mode Idle but returns
`x = 406.55`; the next frame, button up, switches back to Simulation, and the
frame after that integrates again. -/
theorem settle_idempotence_counterexample :
    |(425 + 9 / 100 : ℚ) - 425| < 1 / 10 ∧ |(9 / 100 : ℚ)| < 1 / 10 ∧ (0 : ℚ) ≤ 2 ∧
    (runFrames (World.mk State.RunningSimulation false (425 + 9 / 100 : ℚ) (9 / 100))
      [Input.mk (Vector2.mk 0 0) false 2]).state = State.Idle ∧
    (runFrames (World.mk State.RunningSimulation false (425 + 9 / 100 : ℚ) (9 / 100))
      [Input.mk (Vector2.mk 0 0) false 2]).x = 40655 / 100 ∧
    (runFrames (World.mk State.RunningSimulation false (425 + 9 / 100 : ℚ) (9 / 100))
      [Input.mk (Vector2.mk 0 0) false 2,
       Input.mk (Vector2.mk 0 0) false (16 / 1000)]).state = State.RunningSimulation ∧
    (runFrames (World.mk State.RunningSimulation false (425 + 9 / 100 : ℚ) (9 / 100))
      [Input.mk (Vector2.mk 0 0) false 2,
       Input.mk (Vector2.mk 0 0) false (16 / 1000),
       Input.mk (Vector2.mk 0 0) false (16 / 1000)]).x ≠ 40655 / 100 := by
  norm_num [runFrames, mainFrame, DrawIdle, RunSimulation, acceleration, CheckCollisionPointRec,
    objRect, Clamp, EQUILIBRIUM_X, THRESHOLD, EPSILON, SPRING_STIFFNESS, OBJ_MASS,
    DAMPING_COEFFICIENT, WIDTH, HEIGHT, RECT_SIZE, GROUND_THICK, abs_of_nonneg, abs_of_neg]

/-- C6, amended: a Simulation frame whose incoming `x`, `v` satisfy the settle
condition, with `dt >= 0`, leaves the mode Idle (after one integration step).
If the position `x1` it returns has `|x1 - 425| <= 10`, which is the case
whenever `dt <= 1`, then through every following run of frames with the
button up the mode stays Idle and position and velocity stay the ones that
frame returned. -/
theorem settle_then_idle_while_button_up (w : World α) (inp : Input α)
    (hmode : w.state = State.RunningSimulation)
    (hx : |w.x - 425| < 1 / 10) (hv : |w.v| < 1 / 10) (hdt : 0 ≤ inp.dt) :
    (mainFrame w inp).state = State.Idle ∧
    (inp.dt ≤ 1 → |(mainFrame w inp).x - 425| ≤ 10) ∧
    (|(mainFrame w inp).x - 425| ≤ 10 →
      ∀ inps : List (Input α), (∀ i ∈ inps, i.buttonDown = false) →
        (runFrames w (inp :: inps)).state = State.Idle ∧
        (runFrames w (inp :: inps)).x = (mainFrame w inp).x ∧
        (runFrames w (inp :: inps)).v = (mainFrame w inp).v) := by
  have hs : (mainFrame w inp).state = State.Idle := by
    rw [mainFrame_simulating w inp hmode]
    exact RunSimulation_state_settled w inp.dt hx hv
  refine ⟨hs, ?_, ?_⟩
  · intro h1
    rw [mainFrame_simulating w inp hmode]
    exact RunSimulation_settled_near w inp.dt hx hv hdt h1
  · intro hnear inps hup
    exact runFrames_button_up inps (mainFrame w inp) hs hnear hup

/-- Witness of the amended C6: settle at `x = 425.09`, `v = 0.09` with
`dt = 0.016`, followed by two frames with the button up. -/
theorem settle_then_idle_while_button_up_witness :
    (runFrames (World.mk State.RunningSimulation false (425 + 9 / 100 : ℚ) (9 / 100))
      [Input.mk (Vector2.mk 0 0) false (16 / 1000),
       Input.mk (Vector2.mk 430 250) false (16 / 1000),
       Input.mk (Vector2.mk 0 0) false 2]).state = State.Idle := by
  have h := settle_then_idle_while_button_up
    (World.mk State.RunningSimulation false (425 + 9 / 100 : ℚ) (9 / 100))
    (Input.mk (Vector2.mk 0 0) false (16 / 1000)) rfl
    (by norm_num [abs_of_nonneg]) (by norm_num [abs_of_nonneg]) (by norm_num)
  exact (h.2.2 (h.2.1 (by norm_num))
    [Input.mk (Vector2.mk 430 250) false (16 / 1000), Input.mk (Vector2.mk 0 0) false 2]
    (by simp)).1

/-- C7: with stiffness 50, mass 1 and damping 2, for every `x`, `v` and every
`dt` with `0 <= dt <= 0.016` the integration step of `RunSimulation` does not
increase the energy: `0.5*1*v1^2 + 0.5*50*(x1 - 425)^2 <=
0.5*1*v^2 + 0.5*50*(x - 425)^2` for the returned `x1`, `v1`.  The bound
`D = 0.016` is positive. -/
theorem energy_nonincreasing_small_dt (w : World α) (dt : α)
    (h0 : 0 ≤ dt) (h1 : dt ≤ 16 / 1000) :
    (0 : α) < 16 / 1000 ∧
    1 / 2 * 1 * (RunSimulation w dt).v ^ 2 + 1 / 2 * 50 * ((RunSimulation w dt).x - 425) ^ 2 ≤
      1 / 2 * 1 * w.v ^ 2 + 1 / 2 * 50 * (w.x - 425) ^ 2 ∧
    energy (RunSimulation w dt).x (RunSimulation w dt).v ≤ energy w.x w.v := by
  have hkey := energy_step_le (w.x - 425) w.v dt h0 h1
  have hv1 : (RunSimulation w dt).v = w.v + (-50 * (w.x - 425 : α) - 2 * w.v) * dt :=
    RunSimulation_v w dt
  have hx1 : (RunSimulation w dt).x - 425 =
      (w.x - 425) + (w.v + (-50 * (w.x - 425 : α) - 2 * w.v) * dt) * dt := by
    rw [RunSimulation_x]; ring
  refine ⟨by norm_num, ?_, ?_⟩
  · rw [hv1, hx1]
    linarith
  · simp only [energy, EQUILIBRIUM_X_eq, OBJ_MASS, SPRING_STIFFNESS]
    rw [hv1, hx1]
    linarith

/-- Witness of C7: one 60 FPS frame from `x = 525`, `v = 0`. -/
theorem energy_nonincreasing_small_dt_witness :
    energy (RunSimulation (World.mk State.RunningSimulation false (525 : ℚ) 0) (16 / 1000)).x
        (RunSimulation (World.mk State.RunningSimulation false (525 : ℚ) 0) (16 / 1000)).v ≤
      energy (525 : ℚ) 0 :=
  (energy_nonincreasing_small_dt (World.mk State.RunningSimulation false (525 : ℚ) 0)
    (16 / 1000) (by norm_num) (by norm_num)).2.2

end Runs

end MassOnSpring
